import Mathlib

/-!
Verification of the cafeteria order-management system (cafeteria.py).
Prices are modelled as rationals: every money value in the source is an
exact multiple of 0.25, so float arithmetic there is exact and agrees
with rational arithmetic on all operations performed (addition,
subtraction, comparison).
-/

namespace Cafeteria

/-- Python str.strip(): removes whitespace from both ends. Modelled over
the character list so that proofs can evaluate it. -/
def pyStrip (s : String) : String :=
  ⟨((s.data.dropWhile Char.isWhitespace).reverse.dropWhile Char.isWhitespace).reverse⟩

/-- Python str.lower(): lowercases every character. -/
def pyLower (s : String) : String :=
  ⟨s.data.map Char.toLower⟩

/-- Error kinds raised by the source: ValueError, TypeError, RuntimeError. -/
inductive Erro where
  | valueError (msg : String)
  | typeError (msg : String)
  | runtimeError (msg : String)
deriving DecidableEq, Repr

-- Price constants from class Precos.
namespace Precos

def ESPRESSO : ℚ := 5
def CAPPUCCINO : ℚ := 8
def LATTE : ℚ := 7.5
def LEITE : ℚ := 1.5
def CHOCOLATE : ℚ := 2
def CHANTILLY : ℚ := 2.5

end Precos

/-- The Bebida hierarchy: three concrete bases (Espresso, Cappuccino,
Latte) and three decorator classes (Leite, Chocolate, Chantilly), each
wrapping an inner Bebida. -/
inductive Bebida where
  | espresso
  | cappuccino
  | latte
  | leite (inner : Bebida)
  | chocolate (inner : Bebida)
  | chantilly (inner : Bebida)
deriving DecidableEq, Repr

/-- descricao: each decorator appends its label to the inner description. -/
def Bebida.descricao : Bebida → String
  | .espresso => "Espresso"
  | .cappuccino => "Cappuccino"
  | .latte => "Latte"
  | .leite b => b.descricao ++ " + Leite"
  | .chocolate b => b.descricao ++ " + Chocolate"
  | .chantilly b => b.descricao ++ " + Chantilly"

/-- preco: each decorator adds its fixed increment to the inner price. -/
def Bebida.preco : Bebida → ℚ
  | .espresso => Precos.ESPRESSO
  | .cappuccino => Precos.CAPPUCCINO
  | .latte => Precos.LATTE
  | .leite b => b.preco + Precos.LEITE
  | .chocolate b => b.preco + Precos.CHOCOLATE
  | .chantilly b => b.preco + Precos.CHANTILLY

/-- The three add-on (decorator) kinds, as wrappings one can apply. -/
inductive Ingrediente where
  | leite
  | chocolate
  | chantilly
deriving DecidableEq, Repr

/-- Applying one decorator constructor over a Bebida. -/
def Ingrediente.aplicar : Ingrediente → Bebida → Bebida
  | .leite, b => .leite b
  | .chocolate, b => .chocolate b
  | .chantilly, b => .chantilly b

/-- The fixed price increment of each decorator. -/
def Ingrediente.incremento : Ingrediente → ℚ
  | .leite => Precos.LEITE
  | .chocolate => Precos.CHOCOLATE
  | .chantilly => Precos.CHANTILLY

/-- The description string each decorator appends. -/
def Ingrediente.sufixo : Ingrediente → String
  | .leite => " + Leite"
  | .chocolate => " + Chocolate"
  | .chantilly => " + Chantilly"

/-- Wrap a Bebida with a sequence of decorators, first element applied
first (innermost), last element applied last (outermost). -/
def aplicarTodos (b : Bebida) (ws : List Ingrediente) : Bebida :=
  ws.foldl (fun acc w => w.aplicar acc) b

/-- FabricaBebidas._fabricas: the registry keys in insertion order,
mapping to the bebida each concrete factory constructs. -/
def fabricasRegistro : List (String × Bebida) :=
  [("espresso", .espresso), ("cappuccino", .cappuccino), ("latte", .latte)]

/-- FabricaBebidas.tipos_disponiveis. -/
def tiposDisponiveis : List String := fabricasRegistro.map Prod.fst

/-- FabricaBebidas.criar: rejects an empty or all-whitespace key,
normalizes via lower + strip, looks up the registry, and on a miss
raises a ValueError whose message lists the registered keys. -/
def criar (tipo : String) : Except Erro Bebida :=
  if pyStrip tipo = "" then
    .error (.valueError "Tipo de bebida não pode ser vazio")
  else
    let tipoNormalizado := pyStrip (pyLower tipo)
    match (fabricasRegistro.lookup tipoNormalizado) with
    | some b => .ok b
    | none =>
        .error (.valueError
          ("Tipo de bebida desconhecido: \x27" ++ tipo ++ "\x27. Tipos válidos: "
            ++ String.intercalate ", " tiposDisponiveis))

/-- Log lines emitted by the payment strategies, with their numeric
payloads kept exact (formatting to 2 decimals happens only at the
console boundary). -/
inductive LogPagamento where
  | cartaoProcessando (valor : ℚ) (ultimos4 : String)
  | pixEnviado (valor : ℚ) (chave : String)
  | pixAguardando
  | dinheiroRecebido (valorEntregue : ℚ)
  | troco (valor : ℚ)
  | faltam (valor : ℚ)
deriving DecidableEq, Repr

/-- The three concrete PagamentoStrategy variants with their immutable
construction state. -/
inductive PagamentoStrategy where
  | cartao (numero : String)
  | pix (chave : String)
  | dinheiro (valorEntregue : ℚ)
deriving DecidableEq, Repr

/-- PagamentoCartao.__init__: rejects an empty or too-short card number. -/
def mkCartao (numeroCartao : String) : Except Erro PagamentoStrategy :=
  if numeroCartao = "" ∨ numeroCartao.data.length < 4 then
    .error (.valueError "Número do cartão inválido")
  else
    .ok (.cartao numeroCartao)

/-- PagamentoPix.__init__: rejects an empty or all-whitespace key and
stores the stripped key. -/
def mkPix (chavePix : String) : Except Erro PagamentoStrategy :=
  if pyStrip chavePix = "" then
    .error (.valueError "Chave PIX não pode ser vazia")
  else
    .ok (.pix (pyStrip chavePix))

/-- PagamentoDinheiro.__init__: rejects a non-positive tendered amount. -/
def mkDinheiro (valorEntregue : ℚ) : Except Erro PagamentoStrategy :=
  if valorEntregue ≤ 0 then
    .error (.valueError "Valor entregue deve ser positivo")
  else
    .ok (.dinheiro valorEntregue)

/-- pagar: each variant rejects a non-positive amount with ValueError;
cartao and pix then always succeed; dinheiro succeeds iff the tendered
amount covers the charge, logging the change when positive, and returns
false (no exception) on a shortfall. -/
def PagamentoStrategy.pagar : PagamentoStrategy → ℚ → Except Erro (Bool × List LogPagamento)
  | .cartao numero, valor =>
      if valor ≤ 0 then .error (.valueError "Valor de pagamento deve ser positivo")
      else .ok (true, [.cartaoProcessando valor ⟨numero.data.drop (numero.data.length - 4)⟩])
  | .pix chave, valor =>
      if valor ≤ 0 then .error (.valueError "Valor de pagamento deve ser positivo")
      else .ok (true, [.pixEnviado valor chave, .pixAguardando])
  | .dinheiro valorEntregue, valor =>
      if valor ≤ 0 then .error (.valueError "Valor de pagamento deve ser positivo")
      else if valorEntregue ≥ valor then
        .ok (true, .dinheiroRecebido valorEntregue ::
          (if valorEntregue - valor > 0 then [.troco (valorEntregue - valor)] else []))
      else
        .ok (false, [.faltam (valor - valorEntregue)])

/-- PagamentoStrategy.nome of each variant. -/
def PagamentoStrategy.nome : PagamentoStrategy → String
  | .cartao _ => "Cartão de Crédito"
  | .pix _ => "PIX"
  | .dinheiro _ => "Dinheiro"

/-- The StatusPedido enumeration. -/
inductive StatusPedido where
  | RECEBIDO
  | PREPARANDO
  | PRONTO
  | ENTREGUE
deriving DecidableEq, Repr

/-- StatusPedido values. -/
def StatusPedido.value : StatusPedido → String
  | .RECEBIDO => "Recebido"
  | .PREPARANDO => "Preparando"
  | .PRONTO => "Pronto"
  | .ENTREGUE => "Entregue"

/-- The three concrete ObservadorPedido variants with their immutable
attributes. Equality is structural (class plus attribute values),
matching ObservadorPedido.__eq__ which compares __class__ and __dict__. -/
inductive ObservadorPedido where
  | notificadorCliente (nome : String)
  | painelPedidos
  | sistemaMetricas
deriving DecidableEq, Repr

/-- NotificadorCliente.__init__: rejects an empty or all-whitespace
client name and stores the stripped name. -/
def mkNotificadorCliente (nomeCliente : String) : Except Erro ObservadorPedido :=
  if pyStrip nomeCliente = "" then
    .error (.valueError "Nome do cliente não pode ser vazio")
  else
    .ok (.notificadorCliente (pyStrip nomeCliente))

/-- The Pedido aggregate. The Python property getter for status is the
plain field read; the setter is modelled by setStatus below. -/
structure Pedido where
  id : Nat
  cliente : String
  itens : List Bebida
  status : StatusPedido
  observers : List ObservadorPedido
  pagamento : Option PagamentoStrategy
deriving DecidableEq, Repr

/-- Messages emitted by observer reactions. The metric record carries a
wall-clock timestamp in the source; the timestamp is outside the model,
only the fact and the order id are kept. -/
inductive Mensagem where
  | smsPronto (nome : String) (id : Nat)
  | smsPreparando (nome : String) (id : Nat)
  | painelAtualizado (id : Nat) (status : StatusPedido)
  | metricaConcluido (id : Nat)
deriving DecidableEq, Repr

/-- ObservadorPedido.atualizar of each variant: the customer notifier
reacts only to PRONTO and PREPARANDO, the panel reacts to everything,
the metrics recorder only to ENTREGUE. It reads the current status and
id straight off the order it is handed. -/
def ObservadorPedido.atualizar : ObservadorPedido → Pedido → List Mensagem
  | .notificadorCliente nome, p =>
      if p.status = .PRONTO then [.smsPronto nome p.id]
      else if p.status = .PREPARANDO then [.smsPreparando nome p.id]
      else []
  | .painelPedidos, p => [.painelAtualizado p.id p.status]
  | .sistemaMetricas, p =>
      if p.status = .ENTREGUE then [.metricaConcluido p.id] else []

/-- Pedido.__init__ with the process-wide counter made explicit: the
counter is read and bumped only after the name check passes; the fresh
order receives the bumped counter as its id. Returns the order and the
updated counter. -/
def Pedido.init (cliente : String) (contador : Nat) : Except Erro (Pedido × Nat) :=
  if pyStrip cliente = "" then
    .error (.valueError "Nome do cliente não pode ser vazio")
  else
    let c := contador + 1
    .ok ({ id := c, cliente := pyStrip cliente, itens := [],
           status := .RECEBIDO, observers := [], pagamento := none }, c)

/-- A write to the status property, where the written value may or may
not be a StatusPedido instance (the isinstance check in the setter). -/
inductive StatusValor where
  | valido (s : StatusPedido)
  | invalido (descr : String)
deriving DecidableEq, Repr

/-- The status setter: validates the value is a StatusPedido (raising
TypeError before touching anything otherwise), assigns it, then calls
_notificar, which invokes atualizar on every attached observer in list
order, passing the order itself. Returns the raised error or unit, the
resulting order state, and the list of update invocations in order
(observer, messages it emitted). -/
def Pedido.setStatus (p : Pedido) (v : StatusValor) :
    Except Erro Unit × Pedido × List (ObservadorPedido × List Mensagem) :=
  match v with
  | .invalido _ =>
      (.error (.typeError "Status deve ser uma instância de StatusPedido"), p, [])
  | .valido s =>
      let p2 := { p with status := s }
      (.ok (), p2, p2.observers.map fun o => (o, o.atualizar p2))

/-- Pedido.adicionar_observer: appends unless an equal observer is
already present (membership by structural equality). -/
def Pedido.adicionarObserver (p : Pedido) (o : ObservadorPedido) : Pedido :=
  if o ∈ p.observers then p
  else { p with observers := p.observers ++ [o] }

/-- Pedido.remover_observer: removes the first equal observer when one
is present, otherwise a no-op. -/
def Pedido.removerObserver (p : Pedido) (o : ObservadorPedido) : Pedido :=
  if o ∈ p.observers then { p with observers := p.observers.erase o }
  else p

/-- Pedido.adicionar_item: appends the bebida to the item list. -/
def Pedido.adicionarItem (p : Pedido) (b : Bebida) : Pedido :=
  { p with itens := p.itens ++ [b] }

/-- Pedido.total: the sum of the current item prices, recomputed. -/
def Pedido.total (p : Pedido) : ℚ :=
  (p.itens.map Bebida.preco).sum

/-- Pedido.definir_pagamento: overwrites any prior strategy. -/
def Pedido.definirPagamento (p : Pedido) (e : PagamentoStrategy) : Pedido :=
  { p with pagamento := some e }

/-- Pedido.processar_pagamento: RuntimeError when no strategy is set,
RuntimeError when the item list is empty, otherwise delegates to
pagar(total). The order state is returned unchanged in every branch:
the method only reads self. -/
def Pedido.processarPagamento (p : Pedido) :
    Except Erro (Bool × List LogPagamento) × Pedido :=
  match p.pagamento with
  | none => (.error (.runtimeError "Nenhuma forma de pagamento definida!"), p)
  | some estrategia =>
      if p.itens.isEmpty then
        (.error (.runtimeError "Pedido vazio! Adicione itens antes de pagar."), p)
      else
        (estrategia.pagar p.total, p)

/-- A run of order constructions against the process-wide counter,
starting wherever the counter stands: constructions whose name check
fails raise before the counter is bumped and produce no order. -/
def criarPedidosDesde : List String → Nat → List Pedido
  | [], _ => []
  | nome :: resto, c =>
      match Pedido.init nome c with
      | .ok (p, c2) => p :: criarPedidosDesde resto c2
      | .error _ => criarPedidosDesde resto c

/-- All orders constructed over one process lifetime, counter starting
at 0 as in class Pedido. -/
def criarPedidos (nomes : List String) : List Pedido :=
  criarPedidosDesde nomes 0

deriving instance DecidableEq for Except

/-- A concrete order with two attached observers, as in the demo driver. -/
def pedidoDemo : Pedido :=
  { id := 1, cliente := "Maria Silva", itens := [],
    status := .RECEBIDO,
    observers := [.notificadorCliente "Maria Silva", .painelPedidos],
    pagamento := none }

/-- A concrete fresh order with no payment strategy assigned. -/
def pedidoSemPagamento : Pedido :=
  { id := 2, cliente := "Ana", itens := [.espresso], status := .RECEBIDO,
    observers := [], pagamento := none }

/-- A concrete order with a strategy but no items. -/
def pedidoVazio : Pedido :=
  { id := 3, cliente := "Ana", itens := [], status := .RECEBIDO,
    observers := [], pagamento := some (.pix "chave") }

/-- A concrete order with a strategy and one item. -/
def pedidoCheio : Pedido :=
  { id := 4, cliente := "Ana", itens := [.espresso], status := .RECEBIDO,
    observers := [], pagamento := some (.dinheiro 10) }

/-- The first order of the run criarPedidos ["Maria Silva", " ", "Ana"]. -/
def pedidoMaria : Pedido :=
  { id := 1, cliente := "Maria Silva", itens := [], status := .RECEBIDO,
    observers := [], pagamento := none }

/-- The order Pedido.init builds for client Ana with the counter at 0. -/
def pedidoAna : Pedido :=
  { id := 1, cliente := "Ana", itens := [], status := .RECEBIDO,
    observers := [], pagamento := none }

/-! Theorems. -/

lemma descricao_aplicar (w : Ingrediente) (b : Bebida) :
    (w.aplicar b).descricao = b.descricao ++ w.sufixo := by
  cases w <;> rfl

lemma preco_aplicar (w : Ingrediente) (b : Bebida) :
    (w.aplicar b).preco = b.preco + w.incremento := by
  cases w <;> rfl

lemma join_cons (s : String) (l : List String) :
    String.join (s :: l) = s ++ String.join l := by
  apply String.ext
  simp [String.join_eq]

lemma preco_nonneg (b : Bebida) : 0 ≤ b.preco := by
  induction b <;>
    simp [Bebida.preco, Precos.ESPRESSO, Precos.CAPPUCCINO, Precos.LATTE,
      Precos.LEITE, Precos.CHOCOLATE, Precos.CHANTILLY] <;>
    positivity

/-- C1: wrapping any beverage in any sequence of add-on decorators gives
a price equal to the inner price plus the sum of the increments, and a
description equal to the inner description with each suffix appended in
application order (the last-applied suffix last). This covers in
particular the three base beverages. -/
theorem decorator_preco_descricao (b : Bebida) (ws : List Ingrediente) :
    (aplicarTodos b ws).preco = b.preco + (ws.map Ingrediente.incremento).sum ∧
    (aplicarTodos b ws).descricao = b.descricao ++ String.join (ws.map Ingrediente.sufixo) := by
  induction ws generalizing b with
  | nil =>
      simp [aplicarTodos, String.join]
  | cons w ws ih =>
      have h := ih (w.aplicar b)
      constructor
      · calc (aplicarTodos b (w :: ws)).preco
            = (w.aplicar b).preco + (ws.map Ingrediente.incremento).sum := h.1
          _ = b.preco + ((w :: ws).map Ingrediente.incremento).sum := by
              rw [preco_aplicar]; simp; ring
      · calc (aplicarTodos b (w :: ws)).descricao
            = (w.aplicar b).descricao ++ String.join (ws.map Ingrediente.sufixo) := h.2
          _ = b.descricao ++ String.join ((w :: ws).map Ingrediente.sufixo) := by
              rw [descricao_aplicar, List.map_cons, join_cons, String.append_assoc]

/-- C2: a valid status write assigns the new status (touching nothing
else) and then invokes atualizar once per attached observer, in
attachment order, passing the already-updated order; a write of a value
that is not a StatusPedido raises TypeError. -/
theorem setStatus_valido_notifica (p : Pedido) (s : StatusPedido) (r : String) :
    ∃ p2 invs, p.setStatus (.valido s) = (.ok (), p2, invs) ∧
      p2.status = s ∧ p2.id = p.id ∧ p2.cliente = p.cliente ∧ p2.itens = p.itens ∧
      p2.observers = p.observers ∧ p2.pagamento = p.pagamento ∧
      invs.map Prod.fst = p.observers ∧
      (∀ pr, pr ∈ invs → pr.2 = pr.1.atualizar p2) ∧
      (p.setStatus (.invalido r)).1 =
        .error (.typeError "Status deve ser uma instância de StatusPedido") := by
  refine ⟨{ p with status := s }, _, rfl, rfl, rfl, rfl, rfl, rfl, rfl, ?_, ?_, rfl⟩
  · simp [List.map_map, Function.comp_def]
  · intro pr hpr
    simp only [List.mem_map] at hpr
    obtain ⟨o, _, rfl⟩ := hpr
    rfl

/-- Witness for C2 at a concrete order with two observers, also checking
the concrete fan-out (customer notifier then panel, each once). -/
theorem setStatus_valido_notifica_witness :
    (pedidoDemo.setStatus (.valido .PREPARANDO)).2.2 =
      [(.notificadorCliente "Maria Silva", [.smsPreparando "Maria Silva" 1]),
       (.painelPedidos, [.painelAtualizado 1 .PREPARANDO])] ∧
    (∃ p2 invs, pedidoDemo.setStatus (.valido .PREPARANDO) = (.ok (), p2, invs) ∧
      p2.status = .PREPARANDO ∧ p2.id = pedidoDemo.id ∧ p2.cliente = pedidoDemo.cliente ∧
      p2.itens = pedidoDemo.itens ∧
      p2.observers = pedidoDemo.observers ∧ p2.pagamento = pedidoDemo.pagamento ∧
      invs.map Prod.fst = pedidoDemo.observers ∧
      (∀ pr, pr ∈ invs → pr.2 = pr.1.atualizar p2) ∧
      (pedidoDemo.setStatus (.invalido "int 3")).1 =
        .error (.typeError "Status deve ser uma instância de StatusPedido")) :=
  ⟨by decide, setStatus_valido_notifica pedidoDemo .PREPARANDO "int 3"⟩

/-- C10: a status write of a value outside the enumeration raises the
TypeError before assigning anything: the order state is returned exactly
as it was and the invocation list is empty, so no observer runs. -/
theorem setStatus_invalido_atomico (p : Pedido) (r : String) :
    p.setStatus (.invalido r) =
      (.error (.typeError "Status deve ser uma instância de StatusPedido"), p, []) ∧
    (p.setStatus (.invalido r)).2.1.status = p.status :=
  ⟨rfl, rfl⟩

/-- C3: processar_pagamento raises RuntimeError when no strategy is set,
raises RuntimeError when the item list is empty, and otherwise returns
pagar applied to the current total, leaving the order untouched in every
branch. -/
theorem processarPagamento_casos (p : Pedido) :
    (p.pagamento = none →
      p.processarPagamento =
        (.error (.runtimeError "Nenhuma forma de pagamento definida!"), p)) ∧
    (∀ e, p.pagamento = some e → p.itens = [] →
      p.processarPagamento =
        (.error (.runtimeError "Pedido vazio! Adicione itens antes de pagar."), p)) ∧
    (∀ e, p.pagamento = some e → p.itens ≠ [] →
      p.processarPagamento = (e.pagar p.total, p)) := by
  refine ⟨fun h => ?_, fun e he hi => ?_, fun e he hi => ?_⟩
  · simp [Pedido.processarPagamento, h]
  · simp [Pedido.processarPagamento, he, hi]
  · simp [Pedido.processarPagamento, he, List.isEmpty_iff, hi]

/-- Witness for C3: the three branches at concrete orders. -/
theorem processarPagamento_casos_witness :
    (pedidoSemPagamento.processarPagamento =
      (.error (.runtimeError "Nenhuma forma de pagamento definida!"), pedidoSemPagamento)) ∧
    (pedidoVazio.processarPagamento =
      (.error (.runtimeError "Pedido vazio! Adicione itens antes de pagar."), pedidoVazio)) ∧
    (pedidoCheio.processarPagamento =
      ((PagamentoStrategy.dinheiro 10).pagar pedidoCheio.total, pedidoCheio)) :=
  ⟨(processarPagamento_casos pedidoSemPagamento).1 rfl,
   (processarPagamento_casos pedidoVazio).2.1 (.pix "chave") rfl rfl,
   (processarPagamento_casos pedidoCheio).2.2 (.dinheiro 10) rfl (by decide)⟩

/-- C4: the cash strategy rejects a non-positive tendered amount at
construction and a non-positive charge at pay time (ValueError); when
the tendered amount covers the charge it returns true, logging the
change tendered minus charge when that change is positive; otherwise it
returns false with the shortfall logged and no exception. -/
theorem dinheiro_pagar_casos (valorEntregue valor : ℚ) :
    (valorEntregue ≤ 0 →
      mkDinheiro valorEntregue = .error (.valueError "Valor entregue deve ser positivo")) ∧
    (valor ≤ 0 →
      (PagamentoStrategy.dinheiro valorEntregue).pagar valor =
        .error (.valueError "Valor de pagamento deve ser positivo")) ∧
    (0 < valor → valor ≤ valorEntregue →
      (PagamentoStrategy.dinheiro valorEntregue).pagar valor =
        .ok (true, .dinheiroRecebido valorEntregue ::
          (if 0 < valorEntregue - valor then [.troco (valorEntregue - valor)] else []))) ∧
    (0 < valor → valorEntregue < valor →
      (PagamentoStrategy.dinheiro valorEntregue).pagar valor =
        .ok (false, [.faltam (valor - valorEntregue)])) := by
  refine ⟨fun h => ?_, fun h => ?_, fun h1 h2 => ?_, fun h1 h2 => ?_⟩
  · simp [mkDinheiro, h]
  · simp [PagamentoStrategy.pagar, h]
  · simp [PagamentoStrategy.pagar, not_le.2 h1, h2, sub_pos]
  · simp [PagamentoStrategy.pagar, not_le.2 h1, not_le.2 h2]

/-- Witness for C4 at the examples of the claim: tendered 10 against a
charge of 7.50 pays with change 2.50; tendered 5 against 7.50 returns
false; the two ValueError branches at tendered 0 and charge 0. -/
theorem dinheiro_pagar_casos_witness :
    mkDinheiro 0 = .error (.valueError "Valor entregue deve ser positivo") ∧
    (PagamentoStrategy.dinheiro 10).pagar 0 =
      .error (.valueError "Valor de pagamento deve ser positivo") ∧
    (PagamentoStrategy.dinheiro 10).pagar 7.5 =
      .ok (true, [.dinheiroRecebido 10, .troco 2.5]) ∧
    (PagamentoStrategy.dinheiro 5).pagar 7.5 = .ok (false, [.faltam 2.5]) := by
  refine ⟨(dinheiro_pagar_casos 0 1).1 le_rfl,
          (dinheiro_pagar_casos 10 0).2.1 le_rfl, ?_, ?_⟩
  · have h := (dinheiro_pagar_casos 10 7.5).2.2.1 (by norm_num) (by norm_num)
    rw [h]
    norm_num
  · have h := (dinheiro_pagar_casos 5 7.5).2.2.2 (by norm_num) (by norm_num)
    rw [h]
    norm_num

/-- C9: the card and PIX strategies reject a non-positive amount with
ValueError and succeed (returning true) on every positive amount, the
card logging the last four digits, PIX logging the transfer and the
pending confirmation. -/
theorem cartao_pix_pagar (numero chave : String) (valor : ℚ) :
    (valor ≤ 0 →
      (PagamentoStrategy.cartao numero).pagar valor =
        .error (.valueError "Valor de pagamento deve ser positivo") ∧
      (PagamentoStrategy.pix chave).pagar valor =
        .error (.valueError "Valor de pagamento deve ser positivo")) ∧
    (0 < valor →
      (PagamentoStrategy.cartao numero).pagar valor =
        .ok (true, [.cartaoProcessando valor ⟨numero.data.drop (numero.data.length - 4)⟩]) ∧
      (PagamentoStrategy.pix chave).pagar valor =
        .ok (true, [.pixEnviado valor chave, .pixAguardando])) := by
  refine ⟨fun h => ⟨?_, ?_⟩, fun h => ⟨?_, ?_⟩⟩
  · simp [PagamentoStrategy.pagar, h]
  · simp [PagamentoStrategy.pagar, h]
  · simp [PagamentoStrategy.pagar, not_le.2 h]
  · simp [PagamentoStrategy.pagar, not_le.2 h]

/-- Witness for C9: both strategies at amount 1 (success) and at the
non-positive amount 0 (ValueError). -/
theorem cartao_pix_pagar_witness :
    ((PagamentoStrategy.cartao "12345678").pagar 0 =
        .error (.valueError "Valor de pagamento deve ser positivo") ∧
      (PagamentoStrategy.pix "loja").pagar 0 =
        .error (.valueError "Valor de pagamento deve ser positivo")) ∧
    ((PagamentoStrategy.cartao "12345678").pagar 1 =
        .ok (true, [.cartaoProcessando 1 ⟨("12345678").data.drop (("12345678").data.length - 4)⟩]) ∧
      (PagamentoStrategy.pix "loja").pagar 1 =
        .ok (true, [.pixEnviado 1 "loja", .pixAguardando])) :=
  ⟨(cartao_pix_pagar "12345678" "loja" 0).1 le_rfl,
   (cartao_pix_pagar "12345678" "loja" 1).2 one_pos⟩

/-- C5: the factory matches keys case-insensitively after stripping, so
a padded upper-case key builds the same beverage as the lower-case key;
an empty or all-whitespace key raises ValueError; an unknown key raises
ValueError with a message listing the registered keys. -/
theorem criar_casos :
    criar "ESPRESSO " = criar "espresso" ∧
    criar "espresso" = .ok .espresso ∧
    (∀ tipo, pyStrip tipo = "" →
      criar tipo = .error (.valueError "Tipo de bebida não pode ser vazio")) ∧
    criar "mocha" = .error (.valueError
      "Tipo de bebida desconhecido: \x27mocha\x27. Tipos válidos: espresso, cappuccino, latte") := by
  refine ⟨by decide, by decide, fun tipo h => ?_, by decide⟩
  simp [criar, h]

/-- Witness for C5: the empty-key branch at the literal empty string and
at an all-whitespace string. -/
theorem criar_casos_witness :
    criar "" = .error (.valueError "Tipo de bebida não pode ser vazio") ∧
    criar "  " = .error (.valueError "Tipo de bebida não pode ser vazio") :=
  ⟨criar_casos.2.2.1 "" (by decide), criar_casos.2.2.1 "  " (by decide)⟩

lemma adicionar_mem (q : Pedido) (o : ObservadorPedido) (h : o ∈ q.observers) :
    q.adicionarObserver o = q := by
  simp [Pedido.adicionarObserver, h]

/-- C6: attaching an observer structurally equal to an attached one is a
no-op, the attached list then holds it exactly once, a status write
invokes its update exactly once, and removing a non-attached observer is
a no-op. -/
theorem observer_dedup (p : Pedido) (o : ObservadorPedido) (s : StatusPedido)
    (h : o ∉ p.observers) :
    (p.adicionarObserver o).adicionarObserver o = p.adicionarObserver o ∧
    (p.adicionarObserver o).observers.count o = 1 ∧
    (((p.adicionarObserver o).setStatus (.valido s)).2.2.map Prod.fst).count o = 1 ∧
    p.removerObserver o = p := by
  have hadd : (p.adicionarObserver o).observers = p.observers ++ [o] := by
    simp [Pedido.adicionarObserver, h]
  have hcount : (p.observers ++ [o]).count o = 1 := by
    rw [List.count_append, List.count_eq_zero.2 h]
    simp
  refine ⟨?_, ?_, ?_, ?_⟩
  · have hmem : o ∈ (p.adicionarObserver o).observers := by
      rw [hadd]; simp
    exact adicionar_mem _ o hmem
  · rw [hadd]; exact hcount
  · have hfst : (((p.adicionarObserver o).setStatus (.valido s)).2.2.map Prod.fst)
        = (p.adicionarObserver o).observers := by
      simp [Pedido.setStatus, List.map_map, Function.comp_def]
    rw [hfst, hadd]; exact hcount
  · simp [Pedido.removerObserver, h]

/-- Witness for C6: attaching the metrics recorder to the demo order,
which does not hold an equal observer. -/
theorem observer_dedup_witness :
    (pedidoDemo.adicionarObserver .sistemaMetricas).adicionarObserver .sistemaMetricas =
      pedidoDemo.adicionarObserver .sistemaMetricas ∧
    (pedidoDemo.adicionarObserver .sistemaMetricas).observers.count .sistemaMetricas = 1 ∧
    (((pedidoDemo.adicionarObserver .sistemaMetricas).setStatus
        (.valido .ENTREGUE)).2.2.map Prod.fst).count .sistemaMetricas = 1 ∧
    pedidoDemo.removerObserver .sistemaMetricas = pedidoDemo :=
  observer_dedup pedidoDemo .sistemaMetricas .ENTREGUE (by decide)

lemma init_ok {nome : String} {c : Nat} {p : Pedido} {c2 : Nat}
    (h : Pedido.init nome c = .ok (p, c2)) :
    p = { id := c + 1, cliente := pyStrip nome, itens := [],
          status := .RECEBIDO, observers := [], pagamento := none } ∧ c2 = c + 1 := by
  unfold Pedido.init at h
  split at h
  · exact absurd h (by simp)
  · simp only [Except.ok.injEq, Prod.mk.injEq] at h
    exact ⟨h.1.symm, h.2.symm⟩

lemma criarPedidosDesde_gt :
    ∀ (nomes : List String) (c : Nat) (p : Pedido),
      p ∈ criarPedidosDesde nomes c → c < p.id := by
  intro nomes
  induction nomes with
  | nil =>
      intro c p hp
      simp [criarPedidosDesde] at hp
  | cons nome resto ih =>
      intro c p hp
      unfold criarPedidosDesde at hp
      split at hp
      · rename_i q c2 hq
        obtain ⟨hqrec, hc2⟩ := init_ok hq
        rcases List.mem_cons.1 hp with rfl | hmem
        · rw [hqrec]
          exact Nat.lt_succ_self c
        · have := ih c2 p hmem
          omega
      · exact ih c p hp

lemma criarPedidosDesde_pairwise (nomes : List String) :
    ∀ c : Nat, (criarPedidosDesde nomes c).Pairwise (fun a b => a.id < b.id) := by
  induction nomes with
  | nil =>
      intro c
      simp [criarPedidosDesde]
  | cons nome resto ih =>
      intro c
      unfold criarPedidosDesde
      split
      · rename_i q c2 hq
        obtain ⟨hqrec, hc2⟩ := init_ok hq
        refine List.Pairwise.cons ?_ (ih c2)
        intro b hb
        have := criarPedidosDesde_gt resto c2 b hb
        rw [hqrec]
        show c + 1 < b.id
        omega
      · exact ih c

lemma criarPedidosDesde_head :
    ∀ (nomes : List String) (c : Nat) (p : Pedido),
      (criarPedidosDesde nomes c).head? = some p → p.id = c + 1 := by
  intro nomes
  induction nomes with
  | nil =>
      intro c p hp
      simp [criarPedidosDesde] at hp
  | cons nome resto ih =>
      intro c p hp
      unfold criarPedidosDesde at hp
      split at hp
      · rename_i q c2 hq
        obtain ⟨hqrec, hc2⟩ := init_ok hq
        simp only [List.head?_cons, Option.some.injEq] at hp
        rw [← hp, hqrec]
      · exact ih c p hp

/-- C7: over any run of constructions from a fresh process counter, the
assigned order ids are strictly increasing in construction order, hence
pairwise distinct, and the first order constructed receives id 1
(failed constructions raise before the counter is touched and produce
no order). -/
theorem pedido_ids (nomes : List String) :
    ((criarPedidos nomes).Pairwise fun a b => a.id < b.id) ∧
    ((criarPedidos nomes).Pairwise fun a b => a.id ≠ b.id) ∧
    ∀ p, (criarPedidos nomes).head? = some p → p.id = 1 := by
  refine ⟨criarPedidosDesde_pairwise nomes 0, ?_, ?_⟩
  · exact (criarPedidosDesde_pairwise nomes 0).imp Nat.ne_of_lt
  · intro p hp
    exact criarPedidosDesde_head nomes 0 p hp

/-- Witness for C7: a run with a rejected all-whitespace name between
two valid ones; the first order carries id 1. -/
theorem pedido_ids_witness :
    ((criarPedidos ["Maria Silva", " ", "Ana"]).Pairwise fun a b => a.id < b.id) ∧
    ((criarPedidos ["Maria Silva", " ", "Ana"]).Pairwise fun a b => a.id ≠ b.id) ∧
    pedidoMaria.id = 1 :=
  ⟨(pedido_ids ["Maria Silva", " ", "Ana"]).1,
   (pedido_ids ["Maria Silva", " ", "Ana"]).2.1,
   (pedido_ids ["Maria Silva", " ", "Ana"]).2.2 pedidoMaria (by decide)⟩

lemma foldl_adicionarItem_itens (bs : List Bebida) (p : Pedido) :
    (bs.foldl Pedido.adicionarItem p).itens = p.itens ++ bs := by
  induction bs generalizing p with
  | nil => simp
  | cons b bs ih =>
      rw [List.foldl_cons, ih]
      simp [Pedido.adicionarItem]

/-- C8: a freshly constructed order totals 0 with no error, and after
any sequence of item additions the total is the exact sum of the item
prices, recomputed, and never negative. -/
theorem total_soma (nome : String) (c c2 : Nat) (p : Pedido)
    (h : Pedido.init nome c = .ok (p, c2)) (bs : List Bebida) :
    p.total = 0 ∧
    (bs.foldl Pedido.adicionarItem p).total = (bs.map Bebida.preco).sum ∧
    0 ≤ (bs.foldl Pedido.adicionarItem p).total := by
  obtain ⟨hrec, -⟩ := init_ok h
  have hitens : p.itens = [] := by rw [hrec]
  have htot : (bs.foldl Pedido.adicionarItem p).total = (bs.map Bebida.preco).sum := by
    rw [Pedido.total, foldl_adicionarItem_itens, hitens]
    simp
  refine ⟨?_, htot, ?_⟩
  · rw [Pedido.total, hitens]
    simp
  · rw [htot]
    apply List.sum_nonneg
    intro x hx
    obtain ⟨b, -, rfl⟩ := List.mem_map.1 hx
    exact preco_nonneg b

/-- Witness for C8: the fresh order for Ana, then one espresso added. -/
theorem total_soma_witness :
    pedidoAna.total = 0 ∧
    ([Bebida.espresso].foldl Pedido.adicionarItem pedidoAna).total =
      ([Bebida.espresso].map Bebida.preco).sum ∧
    0 ≤ ([Bebida.espresso].foldl Pedido.adicionarItem pedidoAna).total :=
  total_soma "Ana" 0 1 pedidoAna (by decide) [Bebida.espresso]

end Cafeteria
